import Mathlib

/-!
Shallow embedding of src/src/questrade-client.ts, a token-managed API client
for the Questrade REST service, together with theorems checking the design
specification against the code.

Modelling conventions:
- JavaScript numbers used as timestamps and statuses are modelled as `Int`
  (timestamps, expires_in) and `Nat` (HTTP status codes).
- The network is an oracle: each operation receives the HTTP response the
  transport would deliver as an explicit argument.
- Side effects (HTTP requests issued, event-emitter emissions) are recorded
  in an explicit event log returned by each operation.
- JavaScript falsiness of the optional access-token string
  (the check `!this.accessToken`) is modelled by `isFalsy`, which holds for
  `none` (undefined) and `some ""` (the empty string).
-/

namespace Questrade

/-- Parsed JSON values, the untyped result of `res.json()`. -/
inductive Json where
  | null : Json
  | bool : Bool → Json
  | num : Int → Json
  | str : String → Json
  | arr : List Json → Json
  | obj : List (String × Json) → Json

/-- The error class `QuestradeApiError` from the source:
message, HTTP status code, raw body text. -/
structure QuestradeApiError where
  message : String
  code : Nat
  body : String
deriving DecidableEq, Repr

/-- The fields of the token-refresh response body the code reads
(`body.access_token`, `body.refresh_token`, `body.api_server`,
`body.expires_in` in `_updateTokens`). -/
structure QuestradeTokenRefreshResponse where
  access_token : String
  refresh_token : String
  api_server : String
  expires_in : Int
deriving DecidableEq, Repr

/-- An HTTP response delivered to `_doApiRequest`: a status code, the raw
body text (`res.text()`), and the parsed JSON body (`res.json()`). -/
structure HttpResponse where
  status : Nat
  body : String
  jsonBody : Json

/-- The `res.ok` predicate of node-fetch: status in the range 200-299. -/
def HttpResponse.ok (r : HttpResponse) : Bool :=
  200 ≤ r.status && r.status < 300

/-- An HTTP response delivered to `_updateTokens`: a status code, the raw
body text, and the body parsed as a `QuestradeTokenRefreshResponse`. -/
structure RefreshHttpResponse where
  status : Nat
  bodyText : String
  tokenBody : QuestradeTokenRefreshResponse
deriving DecidableEq, Repr

/-- The `res.ok` predicate for the refresh response. -/
def RefreshHttpResponse.ok (r : RefreshHttpResponse) : Bool :=
  200 ≤ r.status && r.status < 300

/-- The constant `AUTH_URL` from the source. -/
def AUTH_URL : String := "https://login.questrade.com/oauth2/token"

/-- The constant `CODE_BAD_REQUEST` from the source. -/
def CODE_BAD_REQUEST : Nat := 400

/-- The default API server string from the field initializer of
`apiServer`. -/
def defaultApiServer : String := "https://api01.iq.questrade.com"

/-- The mutable per-instance state of `QuestradeClient`: the four private
fields `refreshToken`, `accessToken`, `expirationTime`, `apiServer`. -/
structure ClientState where
  refreshToken : String
  accessToken : Option String
  expirationTime : Int
  apiServer : String
deriving DecidableEq, Repr

/-- The constructor of `QuestradeClient`: seeds the state with the
caller-supplied refresh token, `undefined` access token, `-1` expiration
time, and the default API server. -/
def mkClient (refreshToken : String) : ClientState :=
  { refreshToken := refreshToken
    accessToken := none
    expirationTime := -1
    apiServer := defaultApiServer }

/-- JavaScript falsiness of the optional access token string, as tested by
the code `if (!this.accessToken)`: holds for `undefined` and for the empty
string. -/
def isFalsy : Option String → Bool
  | none => true
  | some s => s = ""

/-- JavaScript string interpolation of the optional access token, as in the
template literal building the Authorization header: `undefined` prints as
the literal text "undefined". -/
def tokenText : Option String → String
  | none => "undefined"
  | some s => s

/-- The regex replace `this.apiServer.replace(/\/$/, '')`: removes a single
trailing slash when present. Stated over the character list of the string
so that it evaluates by kernel reduction. -/
def stripTrailingSlash (s : String) : String :=
  if s.data.getLast? = some '/' then String.mk s.data.dropLast else s

/-- The URL built by `_doApiRequest`:
the current apiServer with a trailing slash stripped, then the endpoint. -/
def requestUrl (apiServer endpoint : String) : String :=
  stripTrailingSlash apiServer ++ endpoint

/-- The Authorization header value sent by `_doApiRequest`. -/
def authorizationHeader (accessToken : Option String) : String :=
  "Bearer " ++ tokenText accessToken

/-- An HTTP request as issued by `_doApiRequest`: target URL, method, and
the Authorization header value. -/
structure HttpRequest where
  url : String
  method : String
  authorization : String
deriving DecidableEq, Repr

/-- The URL of the token-refresh POST issued by `_updateTokens`. -/
def authRequestUrl (refreshToken : String) : String :=
  AUTH_URL ++ "?grant_type=refresh_token&refresh_token=" ++ refreshToken

/-- The data request `_doApiRequest` issues from a given state. -/
def dataRequestOf (s : ClientState) (endpoint method : String) : HttpRequest :=
  { url := requestUrl s.apiServer endpoint
    method := method
    authorization := authorizationHeader s.accessToken }

/-- Observable effects of the client, recorded in order: a POST to the
token endpoint issued by `_updateTokens`, a data request issued by
`_doApiRequest`, and an emission of the "refresh" event. -/
inductive Event where
  | refreshRequest : String → Event
  | dataRequest : HttpRequest → Event
  | emitRefresh : Event
deriving DecidableEq, Repr

/-- Whether an event is an HTTP call to the token endpoint (one refresh
attempt, successful or not). -/
def Event.isRefreshCall : Event → Bool
  | Event.refreshRequest _ => true
  | _ => false

/-- Whether an event is the emission of the "refresh" notification. -/
def Event.isEmitRefresh : Event → Bool
  | Event.emitRefresh => true
  | _ => false

/-- Number of refresh HTTP calls recorded in a log. -/
def countRefreshCalls (log : List Event) : Nat :=
  (log.filter Event.isRefreshCall).length

/-- Number of "refresh" emissions recorded in a log. -/
def countEmits (log : List Event) : Nat :=
  (log.filter Event.isEmitRefresh).length

/-- Whether an event is a data request (issued by `_doApiRequest`). -/
def Event.isDataRequest : Event → Bool
  | Event.dataRequest _ => true
  | _ => false

/-- The private method `_doApiRequest`: builds the URL from the current
apiServer and the endpoint, issues the request with a Bearer Authorization
header, throws a `QuestradeApiError` naming the method and URL on a
non-success status, and returns the parsed JSON body on success. The
client state is not modified. -/
def doApiRequest (s : ClientState) (endpoint : String) (method : String)
    (res : HttpResponse) : Except QuestradeApiError Json × List Event :=
  let req := dataRequestOf s endpoint method
  if res.ok then
    (Except.ok res.jsonBody, [Event.dataRequest req])
  else
    (Except.error
      { message := "Failed to " ++ method ++ " " ++ req.url
        code := res.status
        body := res.body },
     [Event.dataRequest req])

/-- The private method `_updateTokens`, with `now` the value of
`getCurrentTimeSeconds()` at the assignment to `expirationTime`. On a
non-success status it throws: the dedicated invalid-refresh-token error for
status 400 (with empty body), the generic refresh-failure error carrying
the response body otherwise; the state is returned unchanged. On success
it replaces all four state fields from the response body and emits the
"refresh" event. -/
def updateTokens (s : ClientState) (now : Int) (res : RefreshHttpResponse) :
    Except QuestradeApiError Unit × ClientState × List Event :=
  let requestEv := Event.refreshRequest (authRequestUrl s.refreshToken)
  if res.ok then
    let body := res.tokenBody
    (Except.ok (),
     { refreshToken := body.refresh_token
       accessToken := some body.access_token
       apiServer := body.api_server
       expirationTime := now + body.expires_in },
     [requestEv, Event.emitRefresh])
  else if res.status = CODE_BAD_REQUEST then
    (Except.error
      { message := "Invalid refresh token", code := res.status, body := "" },
     s, [requestEv])
  else
    (Except.error
      { message := "Failed to refresh tokens", code := res.status
        body := res.bodyText },
     s, [requestEv])

/-- The private method `_tokensNeedUpdating` (the freshness check behind
the public data calls), with `now` the value of `getCurrentTimeSeconds()`.
Pure: a function of the state and the clock only. -/
def tokensNeedUpdating (s : ClientState) (now : Int) : Bool :=
  if isFalsy s.accessToken then
    true
  else
    now ≥ s.expirationTime - 20

/-- The environment of one public data call: the current time and the
responses the network would deliver to the refresh request and to the data
request. -/
structure Env where
  now : Int
  refreshRes : RefreshHttpResponse
  dataRes : HttpResponse

/-- The public method `getAccounts`: refresh first when the token is stale
(propagating a refresh failure without issuing the data request), then GET
`/v1/accounts`. -/
def getAccounts (s : ClientState) (env : Env) :
    Except QuestradeApiError Json × ClientState × List Event :=
  if tokensNeedUpdating s env.now then
    match updateTokens s env.now env.refreshRes with
    | (Except.error e, s1, log) => (Except.error e, s1, log)
    | (Except.ok _, s1, log) =>
      let (r, log2) := doApiRequest s1 "/v1/accounts" "GET" env.dataRes
      (r, s1, log ++ log2)
  else
    let (r, log2) := doApiRequest s "/v1/accounts" "GET" env.dataRes
    (r, s, log2)

/-- The endpoint template literal of `getAccountBalances`. -/
def balancesEndpoint (accountNumber : String) : String :=
  "/v1/accounts/" ++ accountNumber ++ "/balances"

/-- The public method `getAccountBalances`: refresh first when the token is
stale (propagating a refresh failure without issuing the data request),
then GET `/v1/accounts/{accountNumber}/balances`. -/
def getAccountBalances (s : ClientState) (accountNumber : String)
    (env : Env) : Except QuestradeApiError Json × ClientState × List Event :=
  if tokensNeedUpdating s env.now then
    match updateTokens s env.now env.refreshRes with
    | (Except.error e, s1, log) => (Except.error e, s1, log)
    | (Except.ok _, s1, log) =>
      let (r, log2) :=
        doApiRequest s1 (balancesEndpoint accountNumber) "GET" env.dataRes
      (r, s1, log ++ log2)
  else
    let (r, log2) :=
      doApiRequest s (balancesEndpoint accountNumber) "GET" env.dataRes
    (r, s, log2)

/-- The accessor `getRefreshToken`: a pure read of the state. -/
def getRefreshToken (s : ClientState) : String :=
  s.refreshToken

/-- The accessor `getAccessToken`: a pure read of the state. -/
def getAccessToken (s : ClientState) : Option String :=
  s.accessToken

/-- The accessor `getAccessTokenExpirationTime`: a pure read of the
state. -/
def getAccessTokenExpirationTime (s : ClientState) : Int :=
  s.expirationTime

/-- One invocation of a public operation of the client, together with the
environment it runs in. The accessors are included for completeness; they
read the state without modifying it. -/
inductive Operation where
  | accounts : Env → Operation
  | balances : String → Env → Operation
  | readRefreshToken : Operation
  | readAccessToken : Operation
  | readExpirationTime : Operation

/-- The state after executing one public operation. -/
def exec (s : ClientState) : Operation → ClientState
  | Operation.accounts env => (getAccounts s env).2.1
  | Operation.balances acct env => (getAccountBalances s acct env).2.1
  | Operation.readRefreshToken => s
  | Operation.readAccessToken => s
  | Operation.readExpirationTime => s

/-- The state after executing a sequence of public operations from a given
state. -/
def run (s : ClientState) (ops : List Operation) : ClientState :=
  ops.foldl exec s

/-! Concrete sample inputs used by witnesses and counterexamples. -/

/-- The token body of the round-trip scenario in the specification. -/
def sampleTokenBody : QuestradeTokenRefreshResponse :=
  { access_token := "A1"
    refresh_token := "R1"
    api_server := "https://srv1/"
    expires_in := 1800 }

/-- A successful refresh response carrying `sampleTokenBody`. -/
def sampleOkRefresh : RefreshHttpResponse :=
  { status := 200, bodyText := "", tokenBody := sampleTokenBody }

/-- A 400 refresh response whose body text is nonempty. -/
def sample400Refresh : RefreshHttpResponse :=
  { status := 400, bodyText := "token expired", tokenBody := sampleTokenBody }

/-- A 500 refresh response. -/
def sample500Refresh : RefreshHttpResponse :=
  { status := 500, bodyText := "server error", tokenBody := sampleTokenBody }

/-- A successful data response. -/
def sampleDataOk : HttpResponse :=
  { status := 200, body := "", jsonBody := Json.obj [] }

/-- A 500 data response with body text "server error". -/
def sampleData500 : HttpResponse :=
  { status := 500, body := "server error", jsonBody := Json.null }

/-- An environment in which the refresh and the data request both
succeed. -/
def sampleEnvOk : Env :=
  { now := 1000, refreshRes := sampleOkRefresh, dataRes := sampleDataOk }

/-- A client state holding a valid, nonempty access token. -/
def sampleFreshState : ClientState :=
  { refreshToken := "R1"
    accessToken := some "A1"
    expirationTime := 5000
    apiServer := "https://srv1/" }

/-- The error `_updateTokens` throws on a non-success status. -/
def refreshFailureError (res : RefreshHttpResponse) : QuestradeApiError :=
  if res.status = CODE_BAD_REQUEST then
    { message := "Invalid refresh token", code := res.status, body := "" }
  else
    { message := "Failed to refresh tokens", code := res.status
      body := res.bodyText }

/-! Unfolding lemmas shared by the theorems below. -/

lemma doApiRequest_log (s : ClientState) (endpoint method : String)
    (res : HttpResponse) :
    (doApiRequest s endpoint method res).2 =
      [Event.dataRequest (dataRequestOf s endpoint method)] := by
  cases h : res.ok <;> simp [doApiRequest, h]

lemma updateTokens_ok_eq (s : ClientState) (now : Int)
    (res : RefreshHttpResponse) (h : res.ok = true) :
    updateTokens s now res =
      (Except.ok (),
       { refreshToken := res.tokenBody.refresh_token
         accessToken := some res.tokenBody.access_token
         apiServer := res.tokenBody.api_server
         expirationTime := now + res.tokenBody.expires_in },
       [Event.refreshRequest (authRequestUrl s.refreshToken),
        Event.emitRefresh]) := by
  simp [updateTokens, h]

lemma updateTokens_fail_eq (s : ClientState) (now : Int)
    (res : RefreshHttpResponse) (h : res.ok = false) :
    updateTokens s now res =
      (Except.error (refreshFailureError res), s,
       [Event.refreshRequest (authRequestUrl s.refreshToken)]) := by
  by_cases h400 : res.status = CODE_BAD_REQUEST <;>
    simp [updateTokens, refreshFailureError, h, h400]

lemma getAccounts_fresh (s : ClientState) (env : Env)
    (h : tokensNeedUpdating s env.now = false) :
    getAccounts s env =
      ((doApiRequest s "/v1/accounts" "GET" env.dataRes).1, s,
       (doApiRequest s "/v1/accounts" "GET" env.dataRes).2) := by
  simp [getAccounts, h]

lemma getAccounts_stale_ok (s : ClientState) (env : Env)
    (h : tokensNeedUpdating s env.now = true)
    (hok : env.refreshRes.ok = true) :
    getAccounts s env =
      ((doApiRequest (updateTokens s env.now env.refreshRes).2.1
          "/v1/accounts" "GET" env.dataRes).1,
       (updateTokens s env.now env.refreshRes).2.1,
       Event.refreshRequest (authRequestUrl s.refreshToken) ::
         Event.emitRefresh ::
         (doApiRequest (updateTokens s env.now env.refreshRes).2.1
           "/v1/accounts" "GET" env.dataRes).2) := by
  simp [getAccounts, h, updateTokens_ok_eq s env.now env.refreshRes hok]

lemma getAccounts_stale_fail (s : ClientState) (env : Env)
    (h : tokensNeedUpdating s env.now = true)
    (hok : env.refreshRes.ok = false) :
    getAccounts s env =
      (Except.error (refreshFailureError env.refreshRes), s,
       [Event.refreshRequest (authRequestUrl s.refreshToken)]) := by
  simp [getAccounts, h, updateTokens_fail_eq s env.now env.refreshRes hok]

lemma getAccountBalances_fresh (s : ClientState) (acct : String) (env : Env)
    (h : tokensNeedUpdating s env.now = false) :
    getAccountBalances s acct env =
      ((doApiRequest s (balancesEndpoint acct) "GET" env.dataRes).1, s,
       (doApiRequest s (balancesEndpoint acct) "GET" env.dataRes).2) := by
  simp [getAccountBalances, h]

lemma getAccountBalances_stale_ok (s : ClientState) (acct : String)
    (env : Env) (h : tokensNeedUpdating s env.now = true)
    (hok : env.refreshRes.ok = true) :
    getAccountBalances s acct env =
      ((doApiRequest (updateTokens s env.now env.refreshRes).2.1
          (balancesEndpoint acct) "GET" env.dataRes).1,
       (updateTokens s env.now env.refreshRes).2.1,
       Event.refreshRequest (authRequestUrl s.refreshToken) ::
         Event.emitRefresh ::
         (doApiRequest (updateTokens s env.now env.refreshRes).2.1
           (balancesEndpoint acct) "GET" env.dataRes).2) := by
  simp [getAccountBalances, h, updateTokens_ok_eq s env.now env.refreshRes hok]

lemma getAccountBalances_stale_fail (s : ClientState) (acct : String)
    (env : Env) (h : tokensNeedUpdating s env.now = true)
    (hok : env.refreshRes.ok = false) :
    getAccountBalances s acct env =
      (Except.error (refreshFailureError env.refreshRes), s,
       [Event.refreshRequest (authRequestUrl s.refreshToken)]) := by
  simp [getAccountBalances, h, updateTokens_fail_eq s env.now env.refreshRes hok]

/-! Theorems settling the claims. -/

/-- C1: on every successful refresh (success status from the token
endpoint), the operation replaces accessToken, refreshToken and apiServer
with the values from the response body, sets expirationTime to the current
time plus expires_in, and emits exactly one "refresh" notification; all
four fields are updated in the same operation. -/
theorem refresh_success_updates_all_and_emits_once
    (s : ClientState) (now : Int) (res : RefreshHttpResponse)
    (h : res.ok = true) :
    (updateTokens s now res).1 = Except.ok () ∧
    (updateTokens s now res).2.1 =
      { refreshToken := res.tokenBody.refresh_token
        accessToken := some res.tokenBody.access_token
        apiServer := res.tokenBody.api_server
        expirationTime := now + res.tokenBody.expires_in } ∧
    countEmits (updateTokens s now res).2.2 = 1 := by
  simp [updateTokens, h, countEmits, Event.isEmitRefresh, List.filter]

/-- C1 witness: the successful sample refresh on a fresh client. -/
theorem refresh_success_updates_all_and_emits_once_witness :
    sampleOkRefresh.ok = true ∧
    ((updateTokens (mkClient "R0") 1000 sampleOkRefresh).1 = Except.ok () ∧
     (updateTokens (mkClient "R0") 1000 sampleOkRefresh).2.1 =
       { refreshToken := sampleOkRefresh.tokenBody.refresh_token
         accessToken := some sampleOkRefresh.tokenBody.access_token
         apiServer := sampleOkRefresh.tokenBody.api_server
         expirationTime := 1000 + sampleOkRefresh.tokenBody.expires_in } ∧
     countEmits (updateTokens (mkClient "R0") 1000 sampleOkRefresh).2.2 = 1) :=
  ⟨rfl,
   refresh_success_updates_all_and_emits_once (mkClient "R0") 1000
     sampleOkRefresh rfl⟩

/-- C2: the freshness check is a pure function of the state and the clock.
It returns true when no access token is held (undefined, and the empty
string is falsy under the code check), and otherwise returns true exactly
when the current time is at least expirationTime minus 20 seconds. -/
theorem tokensNeedUpdating_characterization
    (s : ClientState) (now : Int) :
    tokensNeedUpdating s now =
      (isFalsy s.accessToken || decide (now ≥ s.expirationTime - 20)) ∧
    (s.accessToken = none → tokensNeedUpdating s now = true) ∧
    (∀ t : String, s.accessToken = some t → t ≠ "" →
      (tokensNeedUpdating s now = true ↔ now ≥ s.expirationTime - 20)) := by
  refine ⟨?_, ?_, ?_⟩
  · cases hA : s.accessToken with
    | none => simp [tokensNeedUpdating, isFalsy, hA]
    | some t =>
      by_cases hE : t = "" <;>
        simp [tokensNeedUpdating, isFalsy, hA, hE]
  · intro hA
    simp [tokensNeedUpdating, isFalsy, hA]
  · intro t hA hE
    simp [tokensNeedUpdating, isFalsy, hA, hE]

/-- C2 witness: a client holding the nonempty token "A1" that expires at
time 5000 is exactly stale from time 4980 on; at time 4985 the check
returns true. -/
theorem tokensNeedUpdating_characterization_witness :
    sampleFreshState.accessToken = some "A1" ∧ ("A1" : String) ≠ "" ∧
    (tokensNeedUpdating sampleFreshState 4985 = true ↔
      (4985 : Int) ≥ sampleFreshState.expirationTime - 20) :=
  ⟨rfl, by decide,
   (tokensNeedUpdating_characterization sampleFreshState 4985).2.2 "A1"
     rfl (by decide)⟩

/-- C3: a failed refresh attempt (any non-success status, 400 included)
leaves the client state unchanged: accessToken, expirationTime,
refreshToken and apiServer keep their prior values, so the original
refresh token is never lost on failure. -/
theorem refresh_failure_leaves_state_unchanged
    (s : ClientState) (now : Int) (res : RefreshHttpResponse)
    (h : res.ok = false) :
    (updateTokens s now res).2.1 = s := by
  simp only [updateTokens, h, Bool.false_eq_true, if_false]
  split <;> rfl

/-- C3 witness: a 400 refresh on a fresh client leaves the state equal to
the constructed state. -/
theorem refresh_failure_leaves_state_unchanged_witness :
    sample400Refresh.ok = false ∧
    (updateTokens (mkClient "R0") 0 sample400Refresh).2.1 = mkClient "R0" :=
  ⟨rfl, refresh_failure_leaves_state_unchanged (mkClient "R0") 0
    sample400Refresh rfl⟩

/-- C4: a refresh attempt receiving a non-success status fails with a
QuestradeApiError whose code is the response status; at status 400 the
message indicates an invalid refresh token, at any other non-success
status the message is the generic refresh failure carrying the response
body. -/
theorem refresh_failure_error_shape
    (s : ClientState) (now : Int) (res : RefreshHttpResponse)
    (h : res.ok = false) :
    (res.status = 400 →
      (updateTokens s now res).1 = Except.error
        { message := "Invalid refresh token", code := res.status
          body := "" }) ∧
    (res.status ≠ 400 →
      (updateTokens s now res).1 = Except.error
        { message := "Failed to refresh tokens", code := res.status
          body := res.bodyText }) := by
  constructor
  · intro h400
    simp [updateTokens, h, CODE_BAD_REQUEST, h400]
  · intro h400
    simp [updateTokens, h, CODE_BAD_REQUEST, h400]

/-- C4 witness: a 400 refresh raises the invalid-refresh-token error, and
a 500 refresh raises the generic error carrying the body. -/
theorem refresh_failure_error_shape_witness :
    sample400Refresh.ok = false ∧ sample400Refresh.status = 400 ∧
    (updateTokens (mkClient "R0") 0 sample400Refresh).1 = Except.error
      { message := "Invalid refresh token", code := sample400Refresh.status
        body := "" } ∧
    sample500Refresh.ok = false ∧ sample500Refresh.status ≠ 400 ∧
    (updateTokens (mkClient "R0") 0 sample500Refresh).1 = Except.error
      { message := "Failed to refresh tokens"
        code := sample500Refresh.status
        body := sample500Refresh.bodyText } :=
  ⟨rfl, rfl,
   (refresh_failure_error_shape (mkClient "R0") 0 sample400Refresh rfl).1 rfl,
   rfl, by decide,
   (refresh_failure_error_shape (mkClient "R0") 0 sample500Refresh rfl).2
     (by decide)⟩

/-- C10: a client state whose access token is the empty string (a defined
but falsy value, as delivered by a refresh response whose access_token is
empty) makes the freshness check return true regardless of
expirationTime, so the empty string behaves like an absent token. -/
theorem empty_access_token_needs_refresh
    (s : ClientState) (now : Int) (h : s.accessToken = some "") :
    tokensNeedUpdating s now = true ∧
    (∀ (now2 : Int) (res : RefreshHttpResponse), res.ok = true →
      res.tokenBody.access_token = "" →
      tokensNeedUpdating (updateTokens s now2 res).2.1 now = true) := by
  constructor
  · simp [tokensNeedUpdating, isFalsy, h]
  · intro now2 res hok hempty
    simp [updateTokens, hok, tokensNeedUpdating, isFalsy, hempty]

/-- C10 witness: a state with empty access token and a far-future expiry
still reports that a refresh is needed. -/
theorem empty_access_token_needs_refresh_witness :
    ({ refreshToken := "R1", accessToken := some ""
       expirationTime := 999999, apiServer := defaultApiServer
       : ClientState }).accessToken = some "" ∧
    tokensNeedUpdating
      { refreshToken := "R1", accessToken := some ""
        expirationTime := 999999, apiServer := defaultApiServer } 0 = true :=
  ⟨rfl,
   (empty_access_token_needs_refresh
     { refreshToken := "R1", accessToken := some ""
       expirationTime := 999999, apiServer := defaultApiServer } 0 rfl).1⟩

/-- C6: a data request receiving a non-success status fails with a
QuestradeApiError whose message names the attempted method and URL, whose
code is the response status, and whose body is the raw response body text;
on success the parsed JSON body is returned. -/
theorem doApiRequest_result_shape
    (s : ClientState) (endpoint method : String) (res : HttpResponse) :
    (res.ok = false →
      (doApiRequest s endpoint method res).1 = Except.error
        { message := "Failed to " ++ method ++ " " ++
            requestUrl s.apiServer endpoint
          code := res.status
          body := res.body }) ∧
    (res.ok = true →
      (doApiRequest s endpoint method res).1 = Except.ok res.jsonBody) := by
  constructor
  · intro h
    simp [doApiRequest, dataRequestOf, h]
  · intro h
    simp [doApiRequest, h]

/-- C6 witness: a 500 data response with body "server error" yields the
error with code 500 and body "server error", and its message names the
GET method and the attempted URL. -/
theorem doApiRequest_result_shape_witness :
    sampleData500.ok = false ∧
    (doApiRequest sampleFreshState "/v1/accounts" "GET" sampleData500).1 =
      Except.error
        { message := "Failed to " ++ "GET" ++ " " ++
            requestUrl sampleFreshState.apiServer "/v1/accounts"
          code := sampleData500.status
          body := sampleData500.body } ∧
    sampleData500.status = 500 ∧ sampleData500.body = "server error" :=
  ⟨rfl,
   (doApiRequest_result_shape sampleFreshState "/v1/accounts" "GET"
     sampleData500).1 rfl,
   rfl, rfl⟩

/-- C7: every data request targets the URL obtained by stripping a
trailing slash from the current apiServer and appending the endpoint, and
carries the Bearer access token in the Authorization header; in the
round-trip scenario, after a refresh returning api_server
https://srv1/ with tokens A1 and R1, getAccounts requests
https://srv1/v1/accounts with header Bearer A1 and the refresh token read
afterwards is R1. -/
theorem request_url_and_roundtrip :
    (∀ (s : ClientState) (endpoint method : String) (res : HttpResponse),
      (doApiRequest s endpoint method res).2 =
        [Event.dataRequest
          { url := stripTrailingSlash s.apiServer ++ endpoint
            method := method
            authorization := "Bearer " ++ tokenText s.accessToken }]) ∧
    (getAccounts (mkClient "R0") sampleEnvOk).2.2 =
      [Event.refreshRequest (authRequestUrl "R0"),
       Event.emitRefresh,
       Event.dataRequest
         { url := "https://srv1/v1/accounts", method := "GET"
           authorization := "Bearer A1" }] ∧
    getRefreshToken (getAccounts (mkClient "R0") sampleEnvOk).2.1 = "R1" := by
  refine ⟨?_, ?_, ?_⟩
  · intro s endpoint method res
    by_cases h : res.ok = true <;>
      simp [doApiRequest, dataRequestOf, requestUrl, authorizationHeader, h]
  · rfl
  · rfl

/-- C8 counterexample: a refresh failing with status 400 and response body
text "token expired" raises an error whose body field is the empty string,
not the response body text, so the body is not captured verbatim on the
400 path. -/
theorem refresh_400_body_not_verbatim :
    sample400Refresh.ok = false ∧
    sample400Refresh.bodyText = "token expired" ∧
    (updateTokens (mkClient "R0") 0 sample400Refresh).1 = Except.error
      { message := "Invalid refresh token", code := 400, body := "" } ∧
    ("" : String) ≠ "token expired" := by
  refine ⟨rfl, rfl, rfl, by decide⟩

/-- C8 amended: a refresh failing with a non-success status other than 400
raises an error carrying the response body text verbatim; on status 400
the error body is the empty string. -/
theorem refresh_failure_body_capture
    (s : ClientState) (now : Int) (res : RefreshHttpResponse)
    (h : res.ok = false) :
    (res.status ≠ 400 →
      ((updateTokens s now res).1 = Except.error
        { message := "Failed to refresh tokens", code := res.status
          body := res.bodyText })) ∧
    (res.status = 400 →
      ((updateTokens s now res).1 = Except.error
        { message := "Invalid refresh token", code := res.status
          body := "" })) := by
  constructor
  · intro h400
    simp [updateTokens, h, CODE_BAD_REQUEST, h400]
  · intro h400
    simp [updateTokens, h, CODE_BAD_REQUEST, h400]

/-- C8 amended witness: the 500 refresh error carries "server error"
verbatim. -/
theorem refresh_failure_body_capture_witness :
    sample500Refresh.ok = false ∧ sample500Refresh.status ≠ 400 ∧
    (updateTokens (mkClient "R0") 0 sample500Refresh).1 = Except.error
      { message := "Failed to refresh tokens"
        code := sample500Refresh.status
        body := sample500Refresh.bodyText } :=
  ⟨rfl, by decide,
   (refresh_failure_body_capture (mkClient "R0") 0 sample500Refresh rfl).1
     (by decide)⟩

/-- C5: each of getAccounts and getAccountBalances performs exactly one
refresh call, before the data request, when the freshness check reports
stale, and zero refresh calls when fresh; a refresh failure propagates as
the result without any data request being issued; the data request targets
/v1/accounts, respectively the balances endpoint of the given account. -/
theorem data_calls_refresh_policy
    (s : ClientState) (acct : String) (env : Env) :
    (tokensNeedUpdating s env.now = true →
      countRefreshCalls (getAccounts s env).2.2 = 1 ∧
      countRefreshCalls (getAccountBalances s acct env).2.2 = 1) ∧
    (tokensNeedUpdating s env.now = false →
      countRefreshCalls (getAccounts s env).2.2 = 0 ∧
      countRefreshCalls (getAccountBalances s acct env).2.2 = 0 ∧
      (getAccounts s env).2.2 =
        [Event.dataRequest (dataRequestOf s "/v1/accounts" "GET")] ∧
      (getAccountBalances s acct env).2.2 =
        [Event.dataRequest (dataRequestOf s (balancesEndpoint acct) "GET")]) ∧
    (tokensNeedUpdating s env.now = true → env.refreshRes.ok = false →
      (∃ e : QuestradeApiError,
        (updateTokens s env.now env.refreshRes).1 = Except.error e ∧
        (getAccounts s env).1 = Except.error e ∧
        (getAccountBalances s acct env).1 = Except.error e) ∧
      (getAccounts s env).2.2.filter Event.isDataRequest = [] ∧
      (getAccountBalances s acct env).2.2.filter Event.isDataRequest = []) ∧
    (tokensNeedUpdating s env.now = true → env.refreshRes.ok = true →
      (getAccounts s env).2.2 =
        [Event.refreshRequest (authRequestUrl s.refreshToken),
         Event.emitRefresh,
         Event.dataRequest
           (dataRequestOf (updateTokens s env.now env.refreshRes).2.1
             "/v1/accounts" "GET")] ∧
      (getAccountBalances s acct env).2.2 =
        [Event.refreshRequest (authRequestUrl s.refreshToken),
         Event.emitRefresh,
         Event.dataRequest
           (dataRequestOf (updateTokens s env.now env.refreshRes).2.1
             (balancesEndpoint acct) "GET")]) := by
  refine ⟨?_, ?_, ?_, ?_⟩
  · intro h
    cases hok : env.refreshRes.ok with
    | true =>
      rw [getAccounts_stale_ok s env h hok,
          getAccountBalances_stale_ok s acct env h hok]
      simp [doApiRequest_log, countRefreshCalls, Event.isRefreshCall]
    | false =>
      rw [getAccounts_stale_fail s env h hok,
          getAccountBalances_stale_fail s acct env h hok]
      simp [countRefreshCalls, Event.isRefreshCall]
  · intro h
    rw [getAccounts_fresh s env h, getAccountBalances_fresh s acct env h]
    simp [doApiRequest_log, countRefreshCalls, Event.isRefreshCall,
          Event.isDataRequest]
  · intro h hok
    rw [getAccounts_stale_fail s env h hok,
        getAccountBalances_stale_fail s acct env h hok,
        updateTokens_fail_eq s env.now env.refreshRes hok]
    refine ⟨⟨refreshFailureError env.refreshRes, rfl, rfl, rfl⟩, ?_, ?_⟩ <;>
      simp [Event.isDataRequest]
  · intro h hok
    rw [getAccounts_stale_ok s env h hok,
        getAccountBalances_stale_ok s acct env h hok]
    simp [doApiRequest_log]

/-- C5 witness: a freshly constructed client is stale, and with a
successful refresh response both data calls log one refresh request, the
notification, and then the data request. -/
theorem data_calls_refresh_policy_witness :
    tokensNeedUpdating (mkClient "R0") sampleEnvOk.now = true ∧
    sampleEnvOk.refreshRes.ok = true ∧
    ((getAccounts (mkClient "R0") sampleEnvOk).2.2 =
      [Event.refreshRequest (authRequestUrl (mkClient "R0").refreshToken),
       Event.emitRefresh,
       Event.dataRequest
         (dataRequestOf
           (updateTokens (mkClient "R0") sampleEnvOk.now
             sampleEnvOk.refreshRes).2.1 "/v1/accounts" "GET")] ∧
     (getAccountBalances (mkClient "R0") "123" sampleEnvOk).2.2 =
      [Event.refreshRequest (authRequestUrl (mkClient "R0").refreshToken),
       Event.emitRefresh,
       Event.dataRequest
         (dataRequestOf
           (updateTokens (mkClient "R0") sampleEnvOk.now
             sampleEnvOk.refreshRes).2.1 (balancesEndpoint "123") "GET")]) :=
  ⟨rfl, rfl,
   (data_calls_refresh_policy (mkClient "R0") "123" sampleEnvOk).2.2.2
     rfl rfl⟩

/-- C9: at construction the access token is undefined and the expiration
time is -1, with the caller-supplied refresh token and the default server;
and every public operation either leaves the whole state unchanged or
replaces it with the post-state of one successful refresh, so accessToken
and expirationTime are only ever updated together, never independently. -/
theorem state_fields_updated_together :
    (∀ rt : String,
      (mkClient rt).accessToken = none ∧
      (mkClient rt).expirationTime = -1 ∧
      (mkClient rt).refreshToken = rt ∧
      (mkClient rt).apiServer = defaultApiServer) ∧
    (∀ (s : ClientState) (op : Operation),
      exec s op = s ∨
      (∃ (now : Int) (res : RefreshHttpResponse), res.ok = true ∧
        exec s op = (updateTokens s now res).2.1)) := by
  constructor
  · intro rt
    exact ⟨rfl, rfl, rfl, rfl⟩
  · intro s op
    cases op with
    | accounts env =>
      cases h : tokensNeedUpdating s env.now with
      | false =>
        left
        simp [exec, getAccounts_fresh s env h]
      | true =>
        cases hok : env.refreshRes.ok with
        | false =>
          left
          simp [exec, getAccounts_stale_fail s env h hok]
        | true =>
          right
          exact ⟨env.now, env.refreshRes, hok,
            by simp [exec, getAccounts_stale_ok s env h hok]⟩
    | balances acct env =>
      cases h : tokensNeedUpdating s env.now with
      | false =>
        left
        simp [exec, getAccountBalances_fresh s acct env h]
      | true =>
        cases hok : env.refreshRes.ok with
        | false =>
          left
          simp [exec, getAccountBalances_stale_fail s acct env h hok]
        | true =>
          right
          exact ⟨env.now, env.refreshRes, hok,
            by simp [exec, getAccountBalances_stale_ok s acct env h hok]⟩
    | readRefreshToken => left; rfl
    | readAccessToken => left; rfl
    | readExpirationTime => left; rfl

end Questrade
